import Mathlib

/-!
Verification of the COVID-19 case-prediction page
(`src/pages/4_🤖_Model.py`) against its specification.

The page is a single Streamlit script.  We embed it shallowly:

* a one-row pandas `DataFrame` becomes `Record`, an ordered association
  list from column names to rational values (the source only ever holds
  one row, and all arithmetic is exact on the inputs the claims use, so
  `ℚ` stands in for Python numbers);
* `preprocess` becomes a pure function over `Record`.  In the source it
  assigns `main_dataframe[column] = ...` in place and returns the same
  object, so the caller's `input_df` aliases the returned frame; the
  embedding of `main` makes that aliasing explicit by displaying the
  preprocessed record where the source writes `st.write(input_df)`;
* `@st.cache_resource` becomes an explicit cache value threaded through
  `load_model`: on a miss the body runs and its whole outcome (displayed
  messages and return value, which may be `none`) is stored; on a hit the
  stored outcome is replayed without running the body.  This is
  Streamlit's documented behaviour: the return value is cached whatever
  it is, and static elements issued inside the cached function are
  replayed on a hit;
* the external world of one prediction trigger is an `Env`: whether the
  model file exists, and what deserializing it would yield;
* everything the page shows (`st.error`, `st.write`, `st.success`) is
  collected into a list of `Shown` events.
-/

namespace CovidPrediction

/-- Numeric cell value of the one-row tables. -/
abbrev Value := ℚ

/-- A one-row dataframe: ordered list of (column name, value). -/
abbrev Record := List (String × Value)

/-- Embeds `preprocess` (source lines 7-30): for each column of
`main_dataframe` that also occurs in `dataframe_with_last_known_value`,
subtract the known value and, if the result is negative, overwrite the
cell with `0`; other columns are untouched.  The source mutates
`main_dataframe` in place and returns it; the embedding returns the
post-mutation record. -/
def preprocess (main_dataframe dataframe_with_last_known_value : Record) : Record :=
  main_dataframe.map fun cv =>
    match dataframe_with_last_known_value.lookup cv.1 with
    | some b =>
        let d := cv.2 - b
        (cv.1, if d < 0 then 0 else d)
    | none => cv

/-- The fixed relative path of the serialized model (source line 35). -/
def model_path : String := "model/xgb_model_total_imputed_cases.pkl"

/-- The loaded model handle: one capability, `predict(row) -> scalar`,
which may itself raise at call time (modelled as `Except`). -/
structure Model where
  predict : Record → Except String Value

/-- External world of one prediction trigger: whether `model_path` exists
on disk, and the outcome `joblib.load` would produce if attempted. -/
structure Env where
  pathExists : Bool
  loadArtifact : Except String Model

/-- Message shown by `load_model` when the file is missing (source line
38; the leading space is in the source's f-string). -/
def modelNotFoundMsg : String :=
  " Model file not found at " ++ model_path ++ ". Please check the path and try again."

/-- The body of `load_model` (source lines 33-46), without the
`@st.cache_resource` wrapper: returns the `st.error` messages it displays
and the returned handle (`none` embeds Python's bare `return`/`None`).
The misspelling "occured" is the source's. -/
def load_model_body (env : Env) : List String × Option Model :=
  if env.pathExists = false then
    ([modelNotFoundMsg], none)
  else
    match env.loadArtifact with
    | Except.error e => (["An error occured while loading the model: " ++ e], none)
    | Except.ok m => ([], some m)

/-- State of the `@st.cache_resource` cache on `load_model`: `none` if the
function has not completed yet, otherwise the stored outcome — its
displayed messages and its return value (possibly `none`: Streamlit
caches a `None` return like any other). -/
abbrev Cache := Option (List String × Option Model)

/-- Embeds the cached `load_model` (source line 32): on a cache hit the
stored outcome is replayed without touching the disk; on a miss the body
runs and its outcome is stored. -/
def load_model (env : Env) (cache : Cache) : (List String × Option Model) × Cache :=
  match cache with
  | some r => (r, some r)
  | none =>
      let r := load_model_body env
      (r, some r)

/-- The 14 feature names (source lines 61-66). -/
def feature_list : List String :=
  ["fullyVaccinated", "new_deaths_smoothed", "new_people_vaccinated_smoothed",
   "new_vaccinations_smoothed", "partiallyVaccinated", "stringency_index",
   "test24hours", "totalTests", "totalVaccinations", "vaccinated24hours",
   "rfh", "r3h", "month", "day_of_week"]

/-- Current values of the 14 input widgets (source lines 69-83). -/
structure Inputs where
  fullyVaccinated : Value
  new_deaths_smoothed : Value
  new_people_vaccinated_smoothed : Value
  new_vaccinations_smoothed : Value
  partiallyVaccinated : Value
  stringency_index : Value
  test24hours : Value
  totalTests : Value
  totalVaccinations : Value
  vaccinated24hours : Value
  rfh : Value
  r3h : Value
  month : Value
  day_of_week : Value

/-- The widget bounds (source lines 69-83): each `st.number_input`'s
`min_value`, and `max_value` where one is given. -/
def InBounds (i : Inputs) : Prop :=
  9327654 ≤ i.fullyVaccinated ∧
  0 ≤ i.new_deaths_smoothed ∧
  0 ≤ i.new_people_vaccinated_smoothed ∧
  0 ≤ i.new_vaccinations_smoothed ∧
  4663827 ≤ i.partiallyVaccinated ∧
  (0 ≤ i.stringency_index ∧ i.stringency_index ≤ 100) ∧
  0 ≤ i.test24hours ∧
  4166833 ≤ i.totalTests ∧
  9982068 ≤ i.totalVaccinations ∧
  0 ≤ i.vaccinated24hours ∧
  0 ≤ i.rfh ∧
  0 ≤ i.r3h ∧
  (1 ≤ i.month ∧ i.month ≤ 12) ∧
  (0 ≤ i.day_of_week ∧ i.day_of_week ≤ 6)

instance (i : Inputs) : Decidable (InBounds i) := by
  unfold InBounds; infer_instance

/-- Embeds the construction of `input_df` (source lines 87-102): the
one-row dataframe holding the widget values, columns in source order. -/
def input_df (i : Inputs) : Record :=
  [("fullyVaccinated", i.fullyVaccinated),
   ("new_deaths_smoothed", i.new_deaths_smoothed),
   ("new_people_vaccinated_smoothed", i.new_people_vaccinated_smoothed),
   ("new_vaccinations_smoothed", i.new_vaccinations_smoothed),
   ("partiallyVaccinated", i.partiallyVaccinated),
   ("stringency_index", i.stringency_index),
   ("test24hours", i.test24hours),
   ("totalTests", i.totalTests),
   ("totalVaccinations", i.totalVaccinations),
   ("vaccinated24hours", i.vaccinated24hours),
   ("rfh", i.rfh),
   ("r3h", i.r3h),
   ("month", i.month),
   ("day_of_week", i.day_of_week)]

/-- The baseline ("last known value") constants (source lines 107-110). -/
def differenced_features : Record :=
  [("fullyVaccinated", (9327654 : ℚ)),
   ("new_people_vaccinated_smoothed", (959 : ℚ)),
   ("partiallyVaccinated", (4663827 : ℚ)),
   ("stringency_index", (13.89 : ℚ)),
   ("totalTests", (4166833 : ℚ)),
   ("totalVaccinations", (9982068 : ℚ))]

/-- `differencing_data = pd.DataFrame([differenced_features])` (source
line 112): the one-row baseline table. -/
def differencing_data : Record := differenced_features

/-- Zero-pads a fractional part to width 3. -/
def pad3 (n : Nat) : String :=
  if n < 10 then "00" ++ toString n
  else if n < 100 then "0" ++ toString n
  else toString n

/-- Embeds Python's format spec `" .3f"` used at source line 124: fixed
point with 3 decimal places, the space flag putting a space where the
sign of a non-negative number would go.  Rounding is to the nearest
thousandth (the inputs of the claims are never at a half-thousandth tie,
where Python's float formatting would round to even). -/
def format_space_3f (q : Value) : String :=
  let sign := if q < 0 then "-" else " "
  let m : Int := ⌊|q| * 1000 + 1 / 2⌋
  sign ++ toString (m / 1000) ++ "." ++ pad3 (m % 1000).toNat

/-- One element the page displays during a prediction trigger. -/
inductive Shown where
  | errorMsg (msg : String)
  | note (msg : String)
  | table (r : Record)
  | successMsg (msg : String)
deriving DecidableEq, Repr

/-- The text of Python's `AttributeError` when `model` is `None` and
`model.predict` is evaluated (source line 123), as rendered by the
`except` handler at source line 126. -/
def noneTypeErrorMsg : String :=
  "An error occurred: \x27NoneType\x27 object has no attribute \x27predict\x27"

/-- Embeds the prediction trigger of `main` (source lines 104-126): what
the page displays when the Predict button is pressed, and the model cache
afterwards.  Order follows the source: `load_model` runs first (its
`st.error` calls display), then the submitted-data header and table, then
the `try` block.  Because `preprocess` mutated `input_df` in place at
source line 114, the name `input_df` at line 121 denotes the same object
as `preprocessed_data`, so the displayed table is the preprocessed
record.  `model.predict` on a `None` model raises `AttributeError`,
caught by the `except` at line 125. -/
def main_on_predict (env : Env) (i : Inputs) (cache : Cache) : List Shown × Cache :=
  let preprocessed_data := preprocess (input_df i) differencing_data
  let lr := load_model env cache
  let tryResult : Shown :=
    match lr.1.2 with
    | none => Shown.errorMsg noneTypeErrorMsg
    | some m =>
        match m.predict preprocessed_data with
        | Except.ok p =>
            Shown.successMsg ("Predicted Total Imputed Cases: " ++ format_space_3f p)
        | Except.error e => Shown.errorMsg ("An error occurred: " ++ e)
  (lr.1.1.map Shown.errorMsg
     ++ [Shown.note "**You have submitted the below data.**",
         Shown.table preprocessed_data]
     ++ [tryResult],
   lr.2)

/-- All 14 widgets at their minimum allowed values. -/
def minInputs : Inputs :=
  { fullyVaccinated := 9327654
    new_deaths_smoothed := 0
    new_people_vaccinated_smoothed := 0
    new_vaccinations_smoothed := 0
    partiallyVaccinated := 4663827
    stringency_index := 0
    test24hours := 0
    totalTests := 4166833
    totalVaccinations := 9982068
    vaccinated24hours := 0
    rfh := 0
    r3h := 0
    month := 1
    day_of_week := 0 }

/-- A model stub whose `predict` returns `123.456` for any input. -/
def constModel : Model :=
  { predict := fun _ => Except.ok (123.456 : ℚ) }

/-- Environment where the model file exists and deserializes to
`constModel`. -/
def envGood : Env :=
  { pathExists := true, loadArtifact := Except.ok constModel }

/-- Environment where the model file is missing. -/
def envMissing : Env :=
  { pathExists := false, loadArtifact := Except.error "unreached" }

attribute [local semireducible] Rat.add Rat.sub Rat.mul Rat.inv Rat.ofScientific

/-- Workhorse: a lookup in the preprocessed record, fully characterized by
the lookups in the input and the baseline. -/
theorem preprocess_lookup_eq (df b : Record) (c : String) :
    (preprocess df b).lookup c =
      match df.lookup c, b.lookup c with
      | some v, some w => some (if v - w < 0 then 0 else v - w)
      | some v, none => some v
      | none, _ => none := by
  induction df with
  | nil => rfl
  | cons hd tl ih =>
    obtain ⟨k, v⟩ := hd
    by_cases hck : c = k
    · subst hck
      cases hbk : b.lookup c <;>
        simp [preprocess, List.lookup, hbk]
    · have hbeq : (c == k) = false := beq_eq_false_iff_ne.mpr hck
      cases hbk : b.lookup k <;>
        simpa [preprocess, List.lookup, hbk, hbeq] using ih

/-- Workhorse: preprocessing never changes the column names or their
order. -/
theorem preprocess_columns_eq (df b : Record) :
    (preprocess df b).map Prod.fst = df.map Prod.fst := by
  induction df with
  | nil => rfl
  | cons hd tl ih =>
    cases hbk : b.lookup hd.1 <;>
      simp [preprocess, hbk] at ih ⊢ <;> exact ih

/-- Claim C4: for every one-row Input Record and the constant Baseline
Record, on every column present in both, the preprocessed value is the
input value minus the baseline value when the input value is at least the
baseline value, and `0` otherwise. -/
theorem preprocess_diff_clamp (df : Record) (c : String) (v w : Value)
    (hv : df.lookup c = some v) (hw : differencing_data.lookup c = some w) :
    (preprocess df differencing_data).lookup c = some (if w ≤ v then v - w else 0) := by
  rw [preprocess_lookup_eq, hv, hw]
  show some (if v - w < 0 then 0 else v - w) = some (if w ≤ v then v - w else 0)
  by_cases hvw : w ≤ v
  · rw [if_neg (not_lt.mpr (sub_nonneg.mpr hvw)), if_pos hvw]
  · rw [if_pos (sub_neg.mpr (lt_of_not_le hvw)), if_neg hvw]

/-- Witness for C4 at a concrete input: `stringency_index` 0 against
baseline 13.89 is clamped to 0. -/
theorem preprocess_diff_clamp_witness :
    (input_df minInputs).lookup "stringency_index" = some 0 ∧
    differencing_data.lookup "stringency_index" = some (13.89 : ℚ) ∧
    (preprocess (input_df minInputs) differencing_data).lookup "stringency_index"
      = some (if (13.89 : ℚ) ≤ 0 then 0 - 13.89 else 0) :=
  ⟨by decide, by decide,
    preprocess_diff_clamp (input_df minInputs) "stringency_index" 0 13.89
      (by decide) (by decide)⟩

/-- Claim C6: for every input, the record returned by `preprocess` has
the same column names, in the same order, as the record it was given; and
the Input Record built by `main` has exactly the 14 names of
`feature_list`. -/
theorem preprocess_preserves_columns (df b : Record) (i : Inputs) :
    (preprocess df b).map Prod.fst = df.map Prod.fst ∧
    (input_df i).map Prod.fst = feature_list ∧
    feature_list.length = 14 :=
  ⟨preprocess_columns_eq df b, rfl, rfl⟩

/-- Claim C7: for every input record, a column absent from the Baseline
Record (such as `month`, `day_of_week` or `rfh`) passes through
`preprocess` unchanged. -/
theorem preprocess_passthrough (df : Record) (c : String)
    (h : differencing_data.lookup c = none) :
    (preprocess df differencing_data).lookup c = df.lookup c := by
  rw [preprocess_lookup_eq, h]
  cases df.lookup c <;> rfl

/-- Witness for C7 at a concrete input: `month` is not a baseline column
and is returned unchanged. -/
theorem preprocess_passthrough_witness :
    differencing_data.lookup "month" = none ∧
    (preprocess (input_df minInputs) differencing_data).lookup "month"
      = (input_df minInputs).lookup "month" :=
  ⟨by decide, preprocess_passthrough (input_df minInputs) "month" (by decide)⟩

/-- Claim C8: `preprocess` is total — on any pair of records, every
lookup in the result is determined: columns in the intersection are
differenced and clamped, columns of the input absent from the baseline
pass through, and no other column appears; in particular a baseline whose
columns are not a subset of the input's causes no failure, only the
intersection is processed. -/
theorem preprocess_total_and_intersection_only (df b : Record) (c : String) :
    (preprocess df b).lookup c =
      match df.lookup c, b.lookup c with
      | some v, some w => some (if v - w < 0 then 0 else v - w)
      | some v, none => some v
      | none, _ => none :=
  preprocess_lookup_eq df b c

/-- Claim C10: under the widget minimum bounds the clamp-to-zero branch
is unreachable for the four cumulative columns whose minimum equals the
baseline constant (`fullyVaccinated`, `partiallyVaccinated`,
`totalTests`, `totalVaccinations`): their preprocessed value is exactly
input minus baseline with a non-negative difference; while
`stringency_index` and `new_people_vaccinated_smoothed` (minimum 0,
baselines 13.89 and 959) admit in-bounds inputs whose difference is
negative and is clamped to 0. -/
theorem min_bounds_prevent_clamp_for_cumulative (i : Inputs) (h : InBounds i) :
    (0 ≤ i.fullyVaccinated - 9327654 ∧
      (preprocess (input_df i) differencing_data).lookup "fullyVaccinated"
        = some (i.fullyVaccinated - 9327654)) ∧
    (0 ≤ i.partiallyVaccinated - 4663827 ∧
      (preprocess (input_df i) differencing_data).lookup "partiallyVaccinated"
        = some (i.partiallyVaccinated - 4663827)) ∧
    (0 ≤ i.totalTests - 4166833 ∧
      (preprocess (input_df i) differencing_data).lookup "totalTests"
        = some (i.totalTests - 4166833)) ∧
    (0 ≤ i.totalVaccinations - 9982068 ∧
      (preprocess (input_df i) differencing_data).lookup "totalVaccinations"
        = some (i.totalVaccinations - 9982068)) ∧
    (∃ j, InBounds j ∧
      j.stringency_index - (13.89 : ℚ) < 0 ∧
      (preprocess (input_df j) differencing_data).lookup "stringency_index" = some 0 ∧
      j.new_people_vaccinated_smoothed - 959 < 0 ∧
      (preprocess (input_df j) differencing_data).lookup "new_people_vaccinated_smoothed"
        = some 0) := by
  obtain ⟨h1, -, -, -, h5, -, -, h8, h9, -⟩ := h
  refine ⟨⟨by linarith, ?_⟩, ⟨by linarith, ?_⟩, ⟨by linarith, ?_⟩, ⟨by linarith, ?_⟩, ?_⟩
  · rw [preprocess_lookup_eq]
    show some (if i.fullyVaccinated - 9327654 < 0 then 0 else i.fullyVaccinated - 9327654)
        = some (i.fullyVaccinated - 9327654)
    rw [if_neg (not_lt.mpr (by linarith))]
  · rw [preprocess_lookup_eq]
    show some (if i.partiallyVaccinated - 4663827 < 0 then 0 else i.partiallyVaccinated - 4663827)
        = some (i.partiallyVaccinated - 4663827)
    rw [if_neg (not_lt.mpr (by linarith))]
  · rw [preprocess_lookup_eq]
    show some (if i.totalTests - 4166833 < 0 then 0 else i.totalTests - 4166833)
        = some (i.totalTests - 4166833)
    rw [if_neg (not_lt.mpr (by linarith))]
  · rw [preprocess_lookup_eq]
    show some (if i.totalVaccinations - 9982068 < 0 then 0 else i.totalVaccinations - 9982068)
        = some (i.totalVaccinations - 9982068)
    rw [if_neg (not_lt.mpr (by linarith))]
  · exact ⟨minInputs, by decide, by decide, by decide, by decide, by decide⟩

/-- Witness for C10: the theorem applied at the all-minimum input. -/
theorem min_bounds_prevent_clamp_for_cumulative_witness :
    (0 ≤ minInputs.fullyVaccinated - 9327654 ∧
      (preprocess (input_df minInputs) differencing_data).lookup "fullyVaccinated"
        = some (minInputs.fullyVaccinated - 9327654)) ∧
    (0 ≤ minInputs.partiallyVaccinated - 4663827 ∧
      (preprocess (input_df minInputs) differencing_data).lookup "partiallyVaccinated"
        = some (minInputs.partiallyVaccinated - 4663827)) ∧
    (0 ≤ minInputs.totalTests - 4166833 ∧
      (preprocess (input_df minInputs) differencing_data).lookup "totalTests"
        = some (minInputs.totalTests - 4166833)) ∧
    (0 ≤ minInputs.totalVaccinations - 9982068 ∧
      (preprocess (input_df minInputs) differencing_data).lookup "totalVaccinations"
        = some (minInputs.totalVaccinations - 9982068)) ∧
    (∃ j, InBounds j ∧
      j.stringency_index - (13.89 : ℚ) < 0 ∧
      (preprocess (input_df j) differencing_data).lookup "stringency_index" = some 0 ∧
      j.new_people_vaccinated_smoothed - 959 < 0 ∧
      (preprocess (input_df j) differencing_data).lookup "new_people_vaccinated_smoothed"
        = some 0) :=
  min_bounds_prevent_clamp_for_cumulative minInputs (by decide)

/-- Claim C1 (code bug, evaluated): `preprocess` mutates the caller's
record in place, so the table the trigger displays as "submitted" is the
differenced one, not the original.  At the all-minimum input the original
holds `fullyVaccinated = 9327654` but the displayed table holds `0`, and
the original record is not displayed at all. -/
theorem preprocess_mutation_shows_differenced_submitted :
    (input_df minInputs).lookup "fullyVaccinated" = some 9327654 ∧
    Shown.table (preprocess (input_df minInputs) differencing_data)
      ∈ (main_on_predict envGood minInputs none).1 ∧
    (preprocess (input_df minInputs) differencing_data).lookup "fullyVaccinated" = some 0 ∧
    Shown.table (input_df minInputs) ∉ (main_on_predict envGood minInputs none).1 := by
  refine ⟨by decide, ?_, by decide, ?_⟩ <;> decide

/-- Counterexample to claim C2: with the model file missing, the trigger
does not halt after the loader's error — it goes on to display the
submitted-data section and then a second, generic error produced by
attempting `model.predict` on the absent handle. -/
theorem missing_model_does_not_halt_after_loader_error :
    (main_on_predict envMissing minInputs none).1 =
      [Shown.errorMsg modelNotFoundMsg,
       Shown.note "**You have submitted the below data.**",
       Shown.table (preprocess (input_df minInputs) differencing_data),
       Shown.errorMsg noneTypeErrorMsg] ∧
    noneTypeErrorMsg ≠ modelNotFoundMsg := by
  constructor <;> decide

/-- Claim C2 as amended: when the loader yields no usable model, its
reported cause is displayed, but the orchestrator proceeds anyway — it
shows the submitted-data section and attempts inference on the absent
handle; the resulting `AttributeError` is caught and shown as a generic
error, and no prediction scalar is displayed. -/
theorem no_model_loader_error_then_generic_error (env : Env) (i : Inputs) (cache : Cache)
    (h : (load_model env cache).1.2 = none) :
    (main_on_predict env i cache).1 =
      (load_model env cache).1.1.map Shown.errorMsg
        ++ [Shown.note "**You have submitted the below data.**",
            Shown.table (preprocess (input_df i) differencing_data),
            Shown.errorMsg noneTypeErrorMsg] ∧
    ∀ s, Shown.successMsg s ∉ (main_on_predict env i cache).1 := by
  constructor
  · simp only [main_on_predict, h]
    simp
  · intro s
    simp only [main_on_predict, h]
    simp

/-- Witness for the amended C2 at a concrete state: missing file, fresh
cache, all-minimum inputs. -/
theorem no_model_loader_error_then_generic_error_witness :
    (main_on_predict envMissing minInputs none).1 =
      (load_model envMissing none).1.1.map Shown.errorMsg
        ++ [Shown.note "**You have submitted the below data.**",
            Shown.table (preprocess (input_df minInputs) differencing_data),
            Shown.errorMsg noneTypeErrorMsg] ∧
    ∀ s, Shown.successMsg s ∉ (main_on_predict envMissing minInputs none).1 :=
  no_model_loader_error_then_generic_error envMissing minInputs none rfl

/-- Counterexample to claim C3: a failed load is cached, not retried.
After a first trigger with the file missing, the cache holds the failure;
a second trigger in an environment where the artifact exists and loads
fine still yields no model, because the cached failure is replayed. -/
theorem failed_load_cached_not_retried :
    (load_model envMissing none).2 = some ([modelNotFoundMsg], none) ∧
    (load_model envGood (load_model envMissing none).2).1.2 = none ∧
    envGood.pathExists = true ∧
    (load_model_body envGood).2 = some constModel :=
  ⟨rfl, rfl, rfl, rfl⟩

/-- Claim C3 as amended: the `st.cache_resource` cache stores the first
load's whole outcome, success or failure alike; any later call returns
the stored outcome without re-running the loader body, so a success skips
disk I/O and deserialization but a failure is never retried while the
cache lives. -/
theorem cache_stores_first_outcome (env env2 : Env) (r : List String × Option Model) :
    load_model env (some r) = (r, some r) ∧
    load_model env2 none = (load_model_body env2, some (load_model_body env2)) :=
  ⟨rfl, rfl⟩

/-- Counterexample to claim C5: with a stub model that returns `123.456`
for every input and all 14 widgets at their minimum values, the page
displays neither the string claimed (it shows a double space, from the
space flag in the format spec `" .3f"`) nor the original input values:
the displayed "submitted" table is the differenced one. -/
theorem happy_path_display_mismatch :
    constModel.predict (preprocess (input_df minInputs) differencing_data)
      = Except.ok (123.456 : ℚ) ∧
    Shown.successMsg "Predicted Total Imputed Cases: 123.456"
      ∉ (main_on_predict envGood minInputs none).1 ∧
    Shown.table (input_df minInputs) ∉ (main_on_predict envGood minInputs none).1 := by
  refine ⟨rfl, ?_, ?_⟩ <;> decide

/-- Claim C5 as amended: with the `123.456` stub and all-minimum inputs,
the trigger displays the submitted-data note, the differenced record
(all baseline columns clamped or zeroed, `month` left at 1), and the
success message `Predicted Total Imputed Cases:  123.456` — two spaces
after the colon, the scalar formatted to exactly 3 decimal places. -/
theorem happy_path_actual_display :
    (main_on_predict envGood minInputs none).1 =
      [Shown.note "**You have submitted the below data.**",
       Shown.table
         [("fullyVaccinated", 0), ("new_deaths_smoothed", 0),
          ("new_people_vaccinated_smoothed", 0), ("new_vaccinations_smoothed", 0),
          ("partiallyVaccinated", 0), ("stringency_index", 0), ("test24hours", 0),
          ("totalTests", 0), ("totalVaccinations", 0), ("vaccinated24hours", 0),
          ("rfh", 0), ("r3h", 0), ("month", 1), ("day_of_week", 0)],
       Shown.successMsg "Predicted Total Imputed Cases:  123.456"] := by
  decide

/-- Claim C9: with the model file absent and a fresh cache, any trigger
displays the error naming the missing path, and no prediction scalar is
shown; the embedded trigger is a total function, so the failure is
recovered, not a crash. -/
theorem missing_artifact_error_and_no_scalar (env : Env) (i : Inputs)
    (h : env.pathExists = false) :
    Shown.errorMsg modelNotFoundMsg ∈ (main_on_predict env i none).1 ∧
    ∀ s, Shown.successMsg s ∉ (main_on_predict env i none).1 := by
  have hb : load_model_body env = ([modelNotFoundMsg], none) := by
    simp [load_model_body, h]
  constructor
  · simp [main_on_predict, load_model, hb]
  · intro s
    simp [main_on_predict, load_model, hb]

/-- Witness for C9 at a concrete state: missing file, all-minimum
inputs. -/
theorem missing_artifact_error_and_no_scalar_witness :
    Shown.errorMsg modelNotFoundMsg ∈ (main_on_predict envMissing minInputs none).1 ∧
    ∀ s, Shown.successMsg s ∉ (main_on_predict envMissing minInputs none).1 :=
  missing_artifact_error_and_no_scalar envMissing minInputs rfl

end CovidPrediction
